import Mathlib

/-!
Verification of the route-synthesis and live-distance-tracking engine of a
location-based running companion.

The development shallowly embeds the engine's TypeScript source:

* geodesy (`calculateDistance`, the Haversine great-circle distance with the
  source's 2-decimal rounding, and `formatDistance`, the unit formatter);
* the pure-geometric route synthesizer (`generatePointAtDistance`,
  `generateRoute`, `generateRouteOptions`), with the source's calls to
  `Math.random()` modelled by an injected stream `σ : ℕ → ℝ` of draws,
  consumed in call order;
* the live tracker hidden in the map component's `watchPosition` callback
  (`acceptSample`, `resetTracking`, `processSamples`);
* the session controller's target-crossing logic (`handleLocationUpdate`);
* the service-assisted fetcher's retry ladder (`fetchRouteFromMapbox`),
  with the network stage abstracted by an oracle and evaluation made total
  by a fuel parameter (`FetchOutcome.hung` marks a computation that has not
  settled within the given fuel).

JavaScript numbers are modelled as real numbers where the source computes
with transcendental functions (geodesy, synthesis, tracking) and as rational
numbers where the source only compares, adds and renders (session
controller, formatter).  `x.toFixed(n)` followed by `parseFloat`, and
`Math.round`, are modelled by `round`, Mathlib's round-half-up.
-/

namespace RouteVibes

open Real

/-- A coordinate pair in degrees (the source's `Point { lat, lng }`). -/
structure GeoPoint where
  lat : ℝ
  lng : ℝ

/-- The source's `Route` record. -/
structure Route where
  id : String
  points : List GeoPoint
  distance : ℝ
  description : String
  color : String

/-- Degree-to-radian conversion (the source's `toRad`). -/
noncomputable def toRad (value : ℝ) : ℝ :=
  value * π / 180

/-- JavaScript's `Math.atan2 y x`. -/
noncomputable def atan2 (y x : ℝ) : ℝ :=
  if 0 < x then arctan (y / x)
  else if x < 0 then
    (if 0 ≤ y then arctan (y / x) + π else arctan (y / x) - π)
  else if 0 < y then π / 2
  else if y < 0 then -(π / 2)
  else 0

/-- The source's `calculateDistance` (`src/utils/locationUtils.ts`, also
duplicated in the map-utility modules): Haversine distance in miles on a
sphere of radius 3958.8 miles, rounded to two decimals at the end
(`parseFloat(distance.toFixed(2))`). -/
noncomputable def calculateDistance (lat1 lon1 lat2 lon2 : ℝ) : ℝ :=
  let R : ℝ := 3958.8
  let dLat := toRad (lat2 - lat1)
  let dLon := toRad (lon2 - lon1)
  let a := Real.sin (dLat / 2) * Real.sin (dLat / 2) +
    Real.cos (toRad lat1) * Real.cos (toRad lat2) *
    Real.sin (dLon / 2) * Real.sin (dLon / 2)
  let c := 2 * atan2 (Real.sqrt a) (Real.sqrt (1 - a))
  let distance := R * c
  ((round (distance * 100) : ℤ) : ℝ) / 100

/-- Sum of consecutive-point Haversine distances over a polyline — the
recomputation loop of the service-assisted synthesizer (`actualDistance`),
and the segment sum of the testable tracker property. -/
noncomputable def haversineSum : List GeoPoint → ℝ
  | a :: b :: rest =>
      calculateDistance a.lat a.lng b.lat b.lng + haversineSum (b :: rest)
  | _ => 0

/-- The source's `generatePointAtDistance`: a point at (approximately) the
given distance from the center, in the direction `rnd * 2π` where `rnd` is
the `Math.random()` draw, using the equirectangular approximation with
69 miles per degree. -/
noncomputable def generatePointAtDistance (rnd centerLat centerLng dist : ℝ) :
    GeoPoint :=
  let milesPerDegree : ℝ := 69
  let distanceFraction := dist / milesPerDegree
  let angle := rnd * (2 * π)
  ⟨centerLat + Real.cos angle * distanceFraction,
   centerLng + Real.sin angle * distanceFraction /
     Real.cos (centerLat * π / 180)⟩

/-- The source's `Math.max(3, Math.floor(targetDistance * 3))`. -/
noncomputable def numWaypointsOf (targetDistance : ℝ) : ℕ :=
  (max 3 ⌊targetDistance * 3⌋).toNat

/-- The waypoint loop of `generateRoute`: `k` further waypoints walked from
`cur`, iteration `i` consuming draw `σ i`. -/
noncomputable def walkPoints (σ : ℕ → ℝ) (intervalDistance : ℝ) :
    ℕ → GeoPoint → List GeoPoint
  | 0, _ => []
  | k + 1, cur =>
      let p := generatePointAtDistance (σ 0) cur.lat cur.lng intervalDistance
      p :: walkPoints (fun j => σ (j + 1)) intervalDistance k p

/-- The source's `generateRoute`: start point, `numWaypoints - 1` random
waypoints at equal hop distance, and the start point appended again to close
the loop. -/
noncomputable def generateRoute (σ : ℕ → ℝ) (startLat startLng targetDistance : ℝ) :
    List GeoPoint :=
  let numWaypoints := numWaypointsOf targetDistance
  let intervalDistance := targetDistance / (numWaypoints : ℝ)
  ⟨startLat, startLng⟩ ::
    (walkPoints σ intervalDistance (numWaypoints - 1) ⟨startLat, startLng⟩ ++
      [⟨startLat, startLng⟩])

/-- The fixed color palette of `generateRouteOptions`. -/
def routeColors : List String :=
  ["#1EAEDB", "#4CD964", "#9b87f5"]

/-- The fixed description palette of `generateRouteOptions`. -/
def routeDescriptions : List String :=
  ["Loop around nearby area", "Scenic neighborhood route", "Discover new paths"]

/-- Loop body of the geometric `generateRouteOptions`: `k` routes still to
generate, `pos` the index of the next unconsumed random draw, `i` the loop
counter.  Each iteration draws one variation factor in `[0.95, 1.05]`, then
`generateRoute` consumes one draw per waypoint; the route's `distance` field
is set to `adjustedDistance`, exactly as in the source. -/
noncomputable def genRoutesAux (σ : ℕ → ℝ) (startLat startLng targetDistance : ℝ) :
    ℕ → ℕ → ℕ → List Route
  | _, _, 0 => []
  | pos, i, k + 1 =>
      let variationFactor : ℝ := 0.95 + σ pos * 0.1
      let adjustedDistance := targetDistance * variationFactor
      let routePoints :=
        generateRoute (fun j => σ (pos + 1 + j)) startLat startLng adjustedDistance
      { id := "route-" ++ toString i
        points := routePoints
        distance := adjustedDistance
        description := routeDescriptions.getD (i % routeDescriptions.length) ""
        color := routeColors.getD (i % routeColors.length) "" } ::
      genRoutesAux σ startLat startLng targetDistance
        (pos + 1 + (numWaypointsOf adjustedDistance - 1)) (i + 1) k

/-- The pure-geometric `generateRouteOptions` (mapUtils), randomness
injected as the draw stream `σ`. -/
noncomputable def generateRouteOptions (σ : ℕ → ℝ)
    (startLat startLng targetDistance : ℝ) (numRoutes : ℕ) : List Route :=
  genRoutesAux σ startLat startLng targetDistance 0 0 numRoutes

/-- Live-tracker state hidden in the map component:
`lastPosition.current` and `accumulatedDistance.current`. -/
structure TrackerState where
  lastPosition : Option GeoPoint
  accumulated : ℝ

/-- What the map component does when tracking starts:
`accumulatedDistance.current = 0`.  (No other field is touched.) -/
def resetTracking (s : TrackerState) : TrackerState :=
  { s with accumulated := 0 }

/-- The body of the `watchPosition` callback, restricted to the tracking
state machine (marker and camera moves are display-only).  Returns the new
state and the argument of the `onLocationUpdate` callback when the sample is
accepted (`none` when no report is made). -/
noncomputable def acceptSample (s : TrackerState) (p : GeoPoint) :
    TrackerState × Option ℝ :=
  match s.lastPosition with
  | none => (⟨some p, s.accumulated⟩, none)
  | some prev =>
      let segmentDistance := calculateDistance prev.lat prev.lng p.lat p.lng
      if segmentDistance < 0.1 then
        (⟨some p, s.accumulated + segmentDistance⟩,
         some (s.accumulated + segmentDistance))
      else
        (⟨some p, s.accumulated⟩, none)

/-- Feeding a list of samples to the tracker in delivery order. -/
noncomputable def processSamples (s : TrackerState) : List GeoPoint → TrackerState
  | [] => s
  | p :: rest => processSamples (acceptSample s p).1 rest

/-- Session-controller state of the index page: target distance,
current distance and the one-shot `hasReachedTarget` flag.
JS numbers are modelled as rationals here (pure comparison logic). -/
structure SessionState where
  targetDistance : ℚ
  currentDistance : ℚ
  hasReachedTarget : Bool

/-- Session state right after a tracking session starts
(`setCurrentDistance(0)`, `setHasReachedTarget(false)`). -/
def initialSession (t : ℚ) : SessionState :=
  ⟨t, 0, false⟩

/-- The index page's `handleLocationUpdate`: store the reported distance;
if the target has not been reached yet and the distance is at or past the
target, set the flag and fire the one-shot notification (vibration and
toast).  The returned boolean records whether the notification fired. -/
def handleLocationUpdate (s : SessionState) (dist : ℚ) : SessionState × Bool :=
  if s.hasReachedTarget = false ∧ s.targetDistance ≤ dist then
    (⟨s.targetDistance, dist, true⟩, true)
  else
    (⟨s.targetDistance, dist, s.hasReachedTarget⟩, false)

/-- The sequence of fired/not-fired outcomes over a stream of reported
distances. -/
def fireFlags (s : SessionState) : List ℚ → List Bool
  | [] => []
  | d :: rest =>
      (handleLocationUpdate s d).2 :: fireFlags (handleLocationUpdate s d).1 rest

/-- Modelled from the spec: the target-reached transition "fires a one-shot
transition the first time `accumulated ≥ targetDistance`, never again for
that session" — `true` exactly at the first crossing, `false` everywhere
else. -/
def specFireFlags (t : ℚ) : List ℚ → List Bool
  | [] => []
  | d :: rest =>
      if t ≤ d then true :: rest.map (fun _ => false)
      else false :: specFireFlags t rest

/-- JavaScript's `x.toFixed(1)` for the nonnegative rationals the formatter
feeds it: round to tenths, render as `units.tenth`. -/
def toFixed1 (q : ℚ) : String :=
  let t : ℤ := round (q * 10)
  toString (t / 10) ++ "." ++ toString (t % 10)

/-- The source's `formatDistance`: whole feet below 0.1 miles, otherwise
miles to one decimal place. -/
def formatDistance (distance : ℚ) : String :=
  if distance < 0.1 then
    toString (round (distance * 5280)) ++ " ft"
  else
    toFixed1 distance ++ " mi"

/-- Result of one (fuel-bounded) evaluation of the service-assisted route
fetch: a settled polyline, a rejected promise, or a computation that has not
settled within the fuel. -/
inductive FetchOutcome where
  | ok : List GeoPoint → FetchOutcome
  | thrown : FetchOutcome
  | hung : FetchOutcome

/-- The retry ladder of the service-assisted `fetchRouteFromMapbox`
(mapUtils, directions-service variant), lines 88–116: the whole `try` block
(destination computation, the two directions requests and their
concatenation) is abstracted by the oracle `attempt`, which for a given
target distance and direction bias either yields the block's polyline or
fails (`none` — any thrown error).  The `catch` ladder is transcribed
literally: retry with `bias + π/2`; if that call *rejects*, retry once with
distance `× 0.7` and `bias + π` when the distance exceeds 0.5, and fall back
to the single origin point otherwise or when the third call rejects.  An
inner call that never settles (`hung`) leaves the awaiting frame suspended
forever, so `hung` propagates. -/
noncomputable def fetchRouteFromMapbox (attempt : ℝ → ℝ → Option (List GeoPoint))
    (startLat startLng : ℝ) : ℕ → ℝ → ℝ → FetchOutcome
  | 0, _, _ => .hung
  | fuel + 1, targetDistance, directionBias =>
      match attempt targetDistance directionBias with
      | some pts => .ok pts
      | none =>
          match fetchRouteFromMapbox attempt startLat startLng fuel
              targetDistance (directionBias + π / 2) with
          | .ok pts => .ok pts
          | .hung => .hung
          | .thrown =>
              if 0.5 < targetDistance then
                match fetchRouteFromMapbox attempt startLat startLng fuel
                    (targetDistance * 0.7) (directionBias + π) with
                | .ok pts => .ok pts
                | .hung => .hung
                | .thrown => .ok [⟨startLat, startLng⟩]
              else .ok [⟨startLat, startLng⟩]

/-! ## Theorems -/

lemma abs_sin_eq_sin_abs {x : ℝ} (h : |x| < π / 2) : |Real.sin x| = Real.sin |x| := by
  rcases le_or_lt 0 x with hx0 | hx0
  · rw [abs_of_nonneg hx0,
      abs_of_nonneg (Real.sin_nonneg_of_nonneg_of_le_pi hx0 (by
        linarith [Real.pi_pos, (abs_lt.mp h).2]))]
  · have hx : -π < x := by
      have := (abs_lt.mp h).1
      linarith [Real.pi_pos]
    rw [abs_of_neg hx0, abs_of_neg (Real.sin_neg_of_neg_of_neg_pi_lt hx0 hx),
      Real.sin_neg]

/-- On a meridian (equal longitudes) the source's Haversine collapses to
`R · |Δlat in radians|`, rounded to two decimals. -/
lemma calculateDistance_sameLon (lat1 lat2 lon : ℝ) (h : |lat2 - lat1| < 180) :
    calculateDistance lat1 lon lat2 lon =
      ((round (3958.8 * |(lat2 - lat1) * π / 180| * 100) : ℤ) : ℝ) / 100 := by
  have hpi : (0 : ℝ) < π := Real.pi_pos
  set x : ℝ := (lat2 - lat1) * π / 180 / 2 with hxdef
  have habs : |x| = |lat2 - lat1| * π / 360 := by
    rw [hxdef, abs_div, abs_div, abs_mul, abs_of_pos hpi,
      abs_of_pos (show (0:ℝ) < 180 by norm_num),
      abs_of_pos (show (0:ℝ) < 2 by norm_num)]
    ring
  have hxlt : |x| < π / 2 := by
    rw [habs]
    have h2 : |lat2 - lat1| * π < 180 * π := mul_lt_mul_of_pos_right h hpi
    linarith
  have hxmem : x ∈ Set.Ioo (-(π / 2)) (π / 2) :=
    Set.mem_Ioo.mpr ⟨(abs_lt.mp hxlt).1, (abs_lt.mp hxlt).2⟩
  have hcos : 0 < Real.cos x := Real.cos_pos_of_mem_Ioo hxmem
  have hsin : |Real.sin x| = Real.sin |x| := abs_sin_eq_sin_abs hxlt
  have harct : atan2 |Real.sin x| (Real.cos x) = |x| := by
    rw [atan2, if_pos hcos, hsin, ← Real.cos_abs x, ← Real.tan_eq_sin_div_cos]
    exact Real.arctan_tan (by linarith [abs_nonneg x]) hxlt
  have hlon0 : toRad (lon - lon) = 0 := by
    rw [sub_self, toRad]; ring
  have hdLat : toRad (lat2 - lat1) / 2 = x := by rw [toRad, hxdef]
  have hsq : Real.sin x * Real.sin x = Real.sin x ^ 2 := (pow_two _).symm
  have ha : Real.sin x * Real.sin x +
      Real.cos (toRad lat1) * Real.cos (toRad lat2) *
      Real.sin (0 / 2) * Real.sin (0 / 2) = Real.sin x ^ 2 := by
    rw [hsq]; norm_num
  have hsqrt1 : Real.sqrt (Real.sin x ^ 2) = |Real.sin x| := Real.sqrt_sq_eq_abs _
  have hsqrt2 : Real.sqrt (1 - Real.sin x ^ 2) = Real.cos x := by
    rw [← Real.cos_sq', Real.sqrt_sq_eq_abs, abs_of_pos hcos]
  have hfinal : 3958.8 * (2 * |x|) = 3958.8 * |(lat2 - lat1) * π / 180| := by
    have h2x : |(lat2 - lat1) * π / 180| = 2 * |x| := by
      rw [habs, abs_div, abs_mul, abs_of_pos hpi,
        abs_of_pos (show (0:ℝ) < 180 by norm_num)]
      ring
    rw [h2x]
  rw [calculateDistance]
  simp only [hlon0, hdLat, ha, hsqrt1, hsqrt2, harct]
  rw [← hfinal]

lemma calcDist_self (lat lon : ℝ) : calculateDistance lat lon lat lon = 0 := by
  rw [calculateDistance_sameLon lat lat lon (by simp)]
  simp

/-- A meridian segment of at most `1/100000` degrees (about half a foot)
rounds to a distance of 0 miles. -/
lemma calcDist_small_zero (lat1 lat2 lon : ℝ)
    (h : |lat2 - lat1| ≤ 1 / 100000) :
    calculateDistance lat1 lon lat2 lon = 0 := by
  rw [calculateDistance_sameLon lat1 lat2 lon
    (lt_of_le_of_lt h (by norm_num))]
  have habs : |(lat2 - lat1) * π / 180| = |lat2 - lat1| * π / 180 := by
    rw [abs_div, abs_mul, abs_of_pos Real.pi_pos,
      abs_of_pos (show (0:ℝ) < 180 by norm_num)]
  have hb : |lat2 - lat1| * π ≤ (1 / 100000) * 4 :=
    mul_le_mul h Real.pi_le_four Real.pi_pos.le (by norm_num)
  have h0 : 0 ≤ |lat2 - lat1| * π / 180 :=
    div_nonneg (mul_nonneg (abs_nonneg _) Real.pi_pos.le) (by norm_num)
  have hr : round (3958.8 * |(lat2 - lat1) * π / 180| * 100) = 0 := by
    rw [habs]
    apply round_eq_zero_iff.mpr
    rw [Set.mem_Ico]
    constructor
    · linarith
    · linarith
  rw [hr]
  simp

/-- A meridian segment of `1/10000` degrees rounds to exactly 0.01 miles. -/
lemma calcDist_tiny : calculateDistance 0 0 (1 / 10000) 0 = 1 / 100 := by
  rw [calculateDistance_sameLon 0 (1 / 10000) 0 (by rw [sub_zero,
    abs_of_nonneg (by norm_num : (0:ℝ) ≤ 1 / 10000)]; norm_num)]
  have habs : |((1 : ℝ) / 10000 - 0) * π / 180| = π / 1800000 := by
    rw [abs_of_nonneg (by positivity)]
    ring
  rw [habs]
  have hr : round (3958.8 * (π / 1800000) * 100) = 1 := by
    rw [round_eq]
    apply Int.floor_eq_iff.mpr
    constructor
    · push_cast
      linarith [Real.pi_gt_three]
    · push_cast
      linarith [Real.pi_lt_four]
  rw [hr]
  norm_num

/-- A meridian segment of one whole degree (about 69 miles) is far past the
0.1-mile noise threshold. -/
lemma calcDist_one_deg : (0.1 : ℝ) ≤ calculateDistance 0 0 1 0 := by
  rw [calculateDistance_sameLon 0 1 0 (by rw [sub_zero,
    abs_of_nonneg (by norm_num : (0:ℝ) ≤ 1)]; norm_num)]
  have habs : |((1 : ℝ) - 0) * π / 180| = π / 180 := by
    rw [abs_of_nonneg (by positivity)]
    ring
  rw [habs]
  have hr : (6598 : ℤ) ≤ round (3958.8 * (π / 180) * 100) := by
    rw [round_eq]
    apply Int.le_floor.mpr
    push_cast
    linarith [Real.pi_gt_three]
  have hc : ((6598 : ℤ) : ℝ) ≤ ((round (3958.8 * (π / 180) * 100) : ℤ) : ℝ) :=
    Int.cast_le.mpr hr
  push_cast at hc
  linarith

lemma fireFlags_after_reached (t c : ℚ) (ds : List ℚ) :
    fireFlags ⟨t, c, true⟩ ds = ds.map (fun _ => false) := by
  induction ds generalizing c with
  | nil => rfl
  | cons d rest ih =>
      simp only [fireFlags, handleLocationUpdate]
      rw [if_neg (by simp)]
      simpa using ih d

lemma fireFlags_not_reached (t c : ℚ) (ds : List ℚ) :
    fireFlags ⟨t, c, false⟩ ds = specFireFlags t ds := by
  induction ds generalizing c with
  | nil => rfl
  | cons d rest ih =>
      simp only [fireFlags, handleLocationUpdate, specFireFlags]
      by_cases h : t ≤ d
      · rw [if_pos (by simp [h]), if_pos h]
        simpa using fireFlags_after_reached t d rest
      · rw [if_neg (by simp [h]), if_neg h]
        simpa using ih d

lemma specFireFlags_count (t : ℚ) (ds : List ℚ) :
    (specFireFlags t ds).count true ≤ 1 := by
  induction ds with
  | nil => simp [specFireFlags]
  | cons d rest ih =>
      simp only [specFireFlags]
      by_cases h : t ≤ d
      · rw [if_pos h]
        simp [List.count_cons, List.count_eq_zero]
      · rw [if_neg h]
        simpa [List.count_cons] using ih

/-- C5: a sample at least 0.1 miles from the established baseline is
rejected: the accumulated distance is unchanged, but the stored last
position still advances to the rejected sample, which becomes the baseline
of the next segment computation. -/
theorem rejected_sample_updates_baseline_only (s : TrackerState)
    (prev p : GeoPoint) (hprev : s.lastPosition = some prev)
    (hseg : 0.1 ≤ calculateDistance prev.lat prev.lng p.lat p.lng) :
    (acceptSample s p).1.accumulated = s.accumulated ∧
    (acceptSample s p).1.lastPosition = some p := by
  simp [acceptSample, hprev, not_lt.2 hseg]

/-- C5 witness: from baseline `(0,0)`, the sample `(1,0)` (about 69 miles
away) is rejected but becomes the new baseline. -/
theorem rejected_sample_updates_baseline_only_witness :
    (0.1 : ℝ) ≤ calculateDistance 0 0 1 0 ∧
    ((acceptSample ⟨some ⟨0, 0⟩, 0⟩ ⟨1, 0⟩).1.accumulated = 0 ∧
     (acceptSample ⟨some ⟨0, 0⟩, 0⟩ ⟨1, 0⟩).1.lastPosition = some ⟨1, 0⟩) :=
  ⟨calcDist_one_deg,
   rejected_sample_updates_baseline_only ⟨some ⟨0, 0⟩, 0⟩ ⟨0, 0⟩ ⟨1, 0⟩ rfl
     calcDist_one_deg⟩

/-- C9 counterexample: not every processed sample produces a
cumulative-distance report — the baseline-establishing first sample and a
rejected sample both leave the `onLocationUpdate` callback uncalled. -/
theorem unreported_samples_cex :
    (acceptSample ⟨none, 0⟩ ⟨0, 0⟩).2 = none ∧
    (acceptSample ⟨some ⟨0, 0⟩, 0⟩ ⟨1, 0⟩).2 = none := by
  constructor
  · rfl
  · simp [acceptSample, not_lt.2 calcDist_one_deg]

/-- C9 amended: a cumulative-distance report is delivered only for accepted
samples; the baseline-establishing first sample and rejected samples
(segment at least 0.1 miles) produce no report. -/
theorem report_only_on_accepted (s : TrackerState) (p : GeoPoint) :
    (s.lastPosition = none → (acceptSample s p).2 = none) ∧
    (∀ prev, s.lastPosition = some prev →
      calculateDistance prev.lat prev.lng p.lat p.lng < 0.1 →
      (acceptSample s p).2 =
        some (s.accumulated + calculateDistance prev.lat prev.lng p.lat p.lng)) ∧
    (∀ prev, s.lastPosition = some prev →
      0.1 ≤ calculateDistance prev.lat prev.lng p.lat p.lng →
      (acceptSample s p).2 = none) :=
  ⟨fun h => by simp [acceptSample, h],
   fun prev h hlt => by simp [acceptSample, h, hlt],
   fun prev h hge => by simp [acceptSample, h, not_lt.2 hge]⟩

/-- C9 witness: an accepted zero-length sample reports the (unchanged)
accumulated distance. -/
theorem report_only_on_accepted_witness :
    calculateDistance 0 0 0 0 < 0.1 ∧
    (acceptSample ⟨some ⟨0, 0⟩, 0⟩ ⟨0, 0⟩).2 =
      some (0 + calculateDistance 0 0 0 0) :=
  ⟨by rw [calcDist_self]; norm_num,
   (report_only_on_accepted ⟨some ⟨0, 0⟩, 0⟩ ⟨0, 0⟩).2.1 ⟨0, 0⟩ rfl
     (by rw [calcDist_self]; norm_num)⟩

lemma processSamples_from_baseline (ps : List GeoPoint) :
    ∀ (prev : GeoPoint) (acc : ℝ),
      List.Chain' (fun a b => calculateDistance a.lat a.lng b.lat b.lng < 0.1)
        (prev :: ps) →
      (processSamples ⟨some prev, acc⟩ ps).accumulated =
        acc + haversineSum (prev :: ps) := by
  induction ps with
  | nil =>
      intro prev acc _
      simp [processSamples, haversineSum]
  | cons p rest ih =>
      intro prev acc h
      have h1 : calculateDistance prev.lat prev.lng p.lat p.lng < 0.1 :=
        (List.chain'_cons.mp h).1
      have h2 := (List.chain'_cons.mp h).2
      have hstep : (acceptSample ⟨some prev, acc⟩ p).1 =
          ⟨some p, acc + calculateDistance prev.lat prev.lng p.lat p.lng⟩ := by
        simp [acceptSample, h1]
      simp only [processSamples, hstep]
      rw [ih p _ h2]
      simp only [haversineSum]
      ring

/-- C4 amended: from a tracker state with *no baseline* (`lastPosition =
none`, `accumulated = 0`), feeding `N` samples whose consecutive segment
distances are all below 0.1 miles makes `accumulated` the sum of the `N-1`
segment distances, the first sample contributing 0.  (The code's
session-start reset does not clear the baseline, so a freshly reset tracker
is in this state only when no position was ever delivered; see the
counterexample for the carried-over-baseline behavior.) -/
theorem accumulated_is_segment_sum (ps : List GeoPoint)
    (h : List.Chain' (fun a b => calculateDistance a.lat a.lng b.lat b.lng < 0.1)
      ps) :
    (processSamples ⟨none, 0⟩ ps).accumulated = haversineSum ps := by
  cases ps with
  | nil => simp [processSamples, haversineSum]
  | cons p rest =>
      have hstep : (acceptSample ⟨none, 0⟩ p).1 = ⟨some p, 0⟩ := by
        simp [acceptSample]
      simp only [processSamples, hstep]
      rw [processSamples_from_baseline rest p 0 h]
      simp

/-- C4 witness: two coincident samples — one zero-length segment below the
threshold — give accumulated distance equal to the segment sum. -/
theorem accumulated_is_segment_sum_witness :
    List.Chain' (fun a b => calculateDistance a.lat a.lng b.lat b.lng < 0.1)
      [(⟨0, 0⟩ : GeoPoint), ⟨0, 0⟩] ∧
    (processSamples ⟨none, 0⟩ [(⟨0, 0⟩ : GeoPoint), ⟨0, 0⟩]).accumulated =
      haversineSum [(⟨0, 0⟩ : GeoPoint), ⟨0, 0⟩] := by
  have hc : List.Chain'
      (fun a b : GeoPoint => calculateDistance a.lat a.lng b.lat b.lng < 0.1)
      [(⟨0, 0⟩ : GeoPoint), ⟨0, 0⟩] := by
    rw [List.chain'_cons]
    exact ⟨by rw [calcDist_self]; norm_num, List.chain'_singleton _⟩
  exact ⟨hc, accumulated_is_segment_sum _ hc⟩

/-- C4 counterexample: the session-start reset keeps the previous baseline,
so the claim's equality fails for a freshly reset tracker: from reset state
with carried-over baseline `(0,0)`, the single sample `(0.0001, 0)` (0.01
miles away, below the noise threshold) yields accumulated distance 0.01,
while the claimed sum of the `N-1 = 0` inter-sample segments is 0. -/
theorem reset_carries_baseline_cex :
    (processSamples (resetTracking ⟨some ⟨0, 0⟩, 3⟩)
      [⟨1 / 10000, 0⟩]).accumulated = 1 / 100 ∧
    haversineSum [(⟨1 / 10000, 0⟩ : GeoPoint)] = 0 ∧
    ((processSamples (resetTracking ⟨some ⟨0, 0⟩, 3⟩)
        [⟨1 / 10000, 0⟩]).accumulated =
      haversineSum [(⟨1 / 10000, 0⟩ : GeoPoint)]) = False := by
  have hstep : (acceptSample ⟨some ⟨0, 0⟩, 0⟩ ⟨1 / 10000, 0⟩).1 =
      ⟨some ⟨1 / 10000, 0⟩, 0 + 1 / 100⟩ := by
    simp only [acceptSample]
    rw [show calculateDistance (GeoPoint.mk 0 0).lat (GeoPoint.mk 0 0).lng
        (GeoPoint.mk (1 / 10000) 0).lat (GeoPoint.mk (1 / 10000) 0).lng =
        1 / 100 from calcDist_tiny]
    norm_num
  have hacc : (processSamples (resetTracking ⟨some ⟨0, 0⟩, 3⟩)
      [⟨1 / 10000, 0⟩]).accumulated = 1 / 100 := by
    show (processSamples ⟨some ⟨0, 0⟩, 0⟩ [⟨1 / 10000, 0⟩]).accumulated = 1 / 100
    simp only [processSamples, hstep]
    norm_num
  have hsum : haversineSum [(⟨1 / 10000, 0⟩ : GeoPoint)] = 0 := rfl
  refine ⟨hacc, hsum, eq_false ?_⟩
  rw [hacc, hsum]
  norm_num

/-- C2: within one tracking session (started with `hasReachedTarget = false`),
the target-reached transition fires exactly at the first reported distance
that is at or past the target and never again: the fired-flags sequence
equals the one-shot specification sequence, whose `true`-count is at most
one. -/
theorem session_target_transition_one_shot (t : ℚ) (ds : List ℚ) :
    fireFlags (initialSession t) ds = specFireFlags t ds ∧
    (specFireFlags t ds).count true ≤ 1 :=
  ⟨fireFlags_not_reached t 0 ds, specFireFlags_count t ds⟩

/-- C1 counterexample: a geometric synthesis batch (origin `(0,0)`, target
0.001 miles, one route, all random draws `1/2` so every hop heads due
south) returns a route whose `distance` field is the adjusted target 0.001
while the sum of consecutive-point Haversine distances over its points is 0
(each micro-hop rounds to 0.00 miles): the field is taken from the request,
not recomputed from the polyline. -/
theorem distance_field_not_recomputed_cex :
    ((generateRouteOptions (fun _ => 1 / 2) 0 0 (1 / 1000) 1).head?).elim False
      (fun r => r.distance = 1 / 1000 ∧ haversineSum r.points = 0 ∧
        (r.distance = haversineSum r.points) = False) := by
  have hadj : (1 : ℝ) / 1000 * (0.95 + 1 / 2 * 0.1) = 1 / 1000 := by norm_num
  have hnw : numWaypointsOf ((1 : ℝ) / 1000) = 3 := by
    rw [numWaypointsOf,
      show ⌊(1 : ℝ) / 1000 * 3⌋ = 0 from
        Int.floor_eq_zero_iff.mpr (by rw [Set.mem_Ico]; norm_num)]
    rfl
  have hint : (1 : ℝ) / 1000 / ((3 : ℕ) : ℝ) = 1 / 3000 := by
    push_cast
    norm_num
  have hangle : (1 : ℝ) / 2 * (2 * π) = π := by ring
  simp only [generateRouteOptions, genRoutesAux, List.head?_cons, Option.elim]
  rw [hadj]
  simp only [generateRoute, hnw, hint, walkPoints, generatePointAtDistance,
    hangle, Real.cos_pi, Real.sin_pi, zero_mul, zero_div, add_zero, neg_mul,
    one_mul, zero_add, List.cons_append, List.nil_append]
  have h1 : calculateDistance 0 0 (-(1 / 3000 / 69)) 0 = 0 :=
    calcDist_small_zero 0 (-(1 / 3000 / 69)) 0
      (abs_le.mpr ⟨by norm_num, by norm_num⟩)
  have h2 : calculateDistance (-(1 / 3000 / 69)) 0
      (-(1 / 3000 / 69) + -(1 / 3000 / 69)) 0 = 0 :=
    calcDist_small_zero _ _ 0 (abs_le.mpr ⟨by norm_num, by norm_num⟩)
  have h3 : calculateDistance (-(1 / 3000 / 69) + -(1 / 3000 / 69)) 0 0 0 = 0 :=
    calcDist_small_zero _ _ 0 (abs_le.mpr ⟨by norm_num, by norm_num⟩)
  have hsum : haversineSum [(⟨0, 0⟩ : GeoPoint), ⟨-(1 / 3000 / 69), 0⟩,
      ⟨-(1 / 3000 / 69) + -(1 / 3000 / 69), 0⟩, ⟨0, 0⟩] = 0 := by
    simp only [haversineSum]
    rw [h1, h2, h3]
    norm_num
  refine ⟨trivial, hsum, eq_false ?_⟩
  rw [hsum]
  norm_num

/-- C6 counterexample: starting a tracking session resets `accumulated` to 0
but leaves `lastPosition` untouched — after the session-start reset of a
state whose last position is `(0,0)`, the last position is still `some
(0,0)`, not `none` as the claim requires. -/
theorem resetTracking_keeps_lastPosition_cex :
    (resetTracking ⟨some ⟨0, 0⟩, 5⟩).lastPosition = some ⟨0, 0⟩ ∧
    (resetTracking ⟨some ⟨0, 0⟩, 5⟩).accumulated = 0 ∧
    ((resetTracking ⟨some ⟨0, 0⟩, 5⟩).lastPosition = none) = False := by
  refine ⟨rfl, rfl, eq_false ?_⟩
  simp [resetTracking]

/-- C6 amended: the session-start reset clears `accumulated` to 0 and leaves
`lastPosition` exactly as it was (the baseline carries over from map
initialization or from the previous session). -/
theorem resetTracking_zeroes_accumulated_only (s : TrackerState) :
    (resetTracking s).accumulated = 0 ∧
    (resetTracking s).lastPosition = s.lastPosition :=
  ⟨rfl, rfl⟩

lemma walkPoints_length (i : ℝ) :
    ∀ (k : ℕ) (σ : ℕ → ℝ) (cur : GeoPoint), (walkPoints σ i k cur).length = k := by
  intro k
  induction k with
  | zero => intro σ cur; rfl
  | succ n ih => intro σ cur; simp [walkPoints, ih]

lemma numWaypointsOf_ge_three (d : ℝ) : 3 ≤ numWaypointsOf d := by
  have h3 : (3 : ℤ) ≤ max 3 ⌊d * 3⌋ := le_max_left _ _
  exact Int.toNat_le_toNat h3

lemma generateRoute_structure (σ : ℕ → ℝ) (a b d : ℝ) :
    4 ≤ (generateRoute σ a b d).length ∧
    (generateRoute σ a b d).head? = some ⟨a, b⟩ ∧
    (generateRoute σ a b d).getLast? = some ⟨a, b⟩ := by
  refine ⟨?_, rfl, ?_⟩
  · have hl : (generateRoute σ a b d).length =
        (numWaypointsOf d - 1) + 2 := by
      simp [generateRoute, walkPoints_length]
    rw [hl]
    have := numWaypointsOf_ge_three d
    omega
  · show (GeoPoint.mk a b ::
      (walkPoints σ (d / (numWaypointsOf d : ℝ)) (numWaypointsOf d - 1)
        ⟨a, b⟩ ++ [⟨a, b⟩])).getLast? = some ⟨a, b⟩
    rw [← List.cons_append, List.getLast?_concat]

lemma genRoutesAux_points (σ : ℕ → ℝ) (a b d : ℝ) :
    ∀ (k pos idx i : ℕ),
      ((genRoutesAux σ a b d pos idx k)[i]?).elim True
        (fun r => 4 ≤ r.points.length ∧ r.points.head? = some ⟨a, b⟩ ∧
          r.points.getLast? = some ⟨a, b⟩) := by
  intro k
  induction k with
  | zero => intro pos idx i; simp [genRoutesAux]
  | succ n ih =>
      intro pos idx i
      cases i with
      | zero =>
          simp only [genRoutesAux, List.getElem?_cons_zero, Option.elim]
          exact generateRoute_structure _ a b _
      | succ j =>
          simp only [genRoutesAux, List.getElem?_cons_succ]
          exact ih _ _ j

/-- C7: every route of a geometric synthesis batch (any origin, any target
distance, any batch size and any random draws) has at least 4 points, and
its first and last points are both exactly the origin — a closed loop by
construction. -/
theorem geometric_routes_are_closed_loops (σ : ℕ → ℝ)
    (startLat startLng targetDistance : ℝ) (numRoutes i : ℕ) :
    (((generateRouteOptions σ startLat startLng targetDistance numRoutes)[i]?).elim
      True (fun r => 4 ≤ r.points.length ∧
        r.points.head? = some ⟨startLat, startLng⟩ ∧
        r.points.getLast? = some ⟨startLat, startLng⟩)) :=
  genRoutesAux_points σ startLat startLng targetDistance numRoutes 0 0 i

lemma genRoutesAux_distance (σ : ℕ → ℝ) (a b d : ℝ) :
    ∀ (k pos idx i : ℕ),
      ((genRoutesAux σ a b d pos idx k)[i]?).elim True
        (fun r => ∃ n, r.distance = d * (0.95 + σ n * 0.1)) := by
  intro k
  induction k with
  | zero => intro pos idx i; simp [genRoutesAux]
  | succ n ih =>
      intro pos idx i
      cases i with
      | zero =>
          simp only [genRoutesAux, List.getElem?_cons_zero, Option.elim]
          exact ⟨pos, rfl⟩
      | succ j =>
          simp only [genRoutesAux, List.getElem?_cons_succ]
          exact ih _ _ j

/-- C1 amended: every geometric route's `distance` field is the randomly
adjusted target of the generation request — `targetDistance · (0.95 +
draw·0.1)` for the variation draw consumed for that route — not a
recomputation from `points` (only the service-assisted variant recomputes). -/
theorem routes_distance_is_adjusted_target (σ : ℕ → ℝ)
    (startLat startLng targetDistance : ℝ) (numRoutes i : ℕ) :
    ((generateRouteOptions σ startLat startLng targetDistance numRoutes)[i]?).elim
      True (fun r => ∃ n, r.distance = targetDistance * (0.95 + σ n * 0.1)) :=
  genRoutesAux_distance σ startLat startLng targetDistance numRoutes 0 0 i

lemma genRoutesAux_length (σ : ℕ → ℝ) (a b d : ℝ) (k pos i : ℕ) :
    (genRoutesAux σ a b d pos i k).length = k := by
  induction k generalizing pos i with
  | zero => rfl
  | succ n ih => simp [genRoutesAux, ih]

/-- C8 counterexample: geometric synthesis performs no input validation —
called with the invalid inputs `count = 0` or `targetDistance = -1`, it
returns an ordinary value (the empty batch, resp. a batch with one route)
instead of failing with a validation error. -/
theorem no_validation_error_cex :
    generateRouteOptions (fun _ => 1 / 2) 0 0 0 0 = [] ∧
    (generateRouteOptions (fun _ => 1 / 2) 0 0 (-1) 1).length = 1 := by
  constructor
  · rfl
  · simp [generateRouteOptions, genRoutesAux]

/-- C8 amended: geometric synthesis never fails on any input and performs no
validation: for every draw stream, origin, target distance (positive or
not) and requested count (including 0), it returns a batch of exactly
`numRoutes` routes. -/
theorem generateRouteOptions_total_count (σ : ℕ → ℝ)
    (startLat startLng targetDistance : ℝ) (numRoutes : ℕ) :
    (generateRouteOptions σ startLat startLng targetDistance numRoutes).length =
      numRoutes :=
  genRoutesAux_length σ startLat startLng targetDistance numRoutes 0 0

/-- C3: with a directions service that fails every request, the
service-assisted fetch never settles for any amount of fuel: the first
`catch` retries with bias `+ π/2` through a recursive call that handles all
of its own failures and never rejects, so the reduced-distance tier and the
origin-point fallback are unreachable and the recursion never terminates. -/
theorem fetchRoute_hangs_on_persistent_failure :
    ∀ (fuel : ℕ) (targetDistance directionBias : ℝ),
      fetchRouteFromMapbox (fun _ _ => none) 0 0 fuel targetDistance
        directionBias = FetchOutcome.hung := by
  intro fuel
  induction fuel with
  | zero => intro d b; rfl
  | succ n ih =>
      intro d b
      simp only [fetchRouteFromMapbox]
      rw [ih d (b + π / 2)]

/-- C10: the formatter renders whole feet (`round(miles·5280)` with the
`ft` suffix) below 0.1 miles and miles to one decimal place (with the `mi`
suffix) otherwise; in particular `format 0.05 = "264 ft"` and
`format 2.345 = "2.3 mi"`. -/
theorem formatDistance_contract :
    (∀ q : ℚ, q < 0.1 →
      formatDistance q = toString (round (q * 5280)) ++ " ft") ∧
    (∀ q : ℚ, 0.1 ≤ q → formatDistance q = toFixed1 q ++ " mi") ∧
    formatDistance 0.05 = "264 ft" ∧ formatDistance 2.345 = "2.3 mi" := by
  refine ⟨fun q hq => ?_, fun q hq => ?_, ?_, ?_⟩
  · simp [formatDistance, hq]
  · simp [formatDistance, not_lt.2 hq]
  · rw [formatDistance, if_pos (by norm_num),
      show round ((0.05 : ℚ) * 5280) = 264 by
        norm_num [round_eq, Int.floor_eq_iff]]
    decide
  · rw [formatDistance, if_neg (by norm_num), toFixed1]
    rw [show round ((2.345 : ℚ) * 10) = 23 by
      norm_num [round_eq, Int.floor_eq_iff]]
    decide

/-- C10 witness: the two threshold clauses of the contract instantiated at
the concrete inputs 0.05 and 2.345. -/
theorem formatDistance_contract_witness :
    ((0.05 : ℚ) < 0.1 ∧
      formatDistance 0.05 = toString (round ((0.05 : ℚ) * 5280)) ++ " ft") ∧
    ((0.1 : ℚ) ≤ 2.345 ∧
      formatDistance 2.345 = toFixed1 2.345 ++ " mi") :=
  ⟨⟨by norm_num, formatDistance_contract.1 0.05 (by norm_num)⟩,
   ⟨by norm_num, formatDistance_contract.2.1 2.345 (by norm_num)⟩⟩

end RouteVibes
